import Mathlib

/-!
Shallow embedding of `src/rts/Rendering/GL/GeometryBuffer.cpp` (Spring engine,
`GL::GeometryBuffer`), together with proofs about its lifecycle and
resize/update behaviour.

GL driver calls are modelled as a trace of `GLEvent`s; the ambient GL/driver
state (viewport size, texture-name generator, framebuffer-completeness verdict
of `CheckStatus`) is a `GLContext` threaded through each operation.  A C++
`assert` failure is modelled as `Except.error` carrying the assert condition's
text; normal completion is `Except.ok`.
-/

/-- The `int2` pair type used for buffer sizes (`viewSizeX/viewSizeY` are C++
`int`s, so the components are modelled as `Int`). -/
structure Int2 where
  x : Int
  y : Int
deriving DecidableEq, Repr

/-- Modelled from the spec: `GeometryBuffer.h` is not among the sources; the
spec (section 3) fixes a sequence of N slots with one depth slot and N-1 color
slots, the depth slot attached last and the color slots numbered sequentially
from `GL_COLOR_ATTACHMENT0`, so the depth slot index is N-1.  The concrete
count N is taken to be 6 (normal/diffuse/specular/emit/misc color targets plus
depth), which only fixes the array length and affects no claim. -/
def ATTACHMENT_COUNT : Nat := 6

/-- Modelled from the spec: index of the depth ("z-value") slot, the last slot
(see `ATTACHMENT_COUNT`). -/
def ATTACHMENT_ZVALTEX : Nat := ATTACHMENT_COUNT - 1

/-- Numeric value of the OpenGL constant `GL_COLOR_ATTACHMENT0` (0x8CE0). -/
def GL_COLOR_ATTACHMENT0 : Nat := 36064

/-- Numeric value of the OpenGL constant `GL_DEPTH_ATTACHMENT` (0x8D00). -/
def GL_DEPTH_ATTACHMENT : Nat := 36096

/-- One observable GL driver call issued by the component.  Texture-parameter
calls are collapsed to a tag (their arguments never matter to the claims);
`texImage2D` records the requested dimensions and whether the depth format was
used; `fboAttach` records the texture handle and the attachment point;
`deleteTextures` records the handle array passed to `glDeleteTextures`.
Depth values in `clearDepth` are modelled as integers (only their order is
ever used by the code). -/
inductive GLEvent where
  | genTexture (id : Nat)
  | bindTexture (id : Nat)
  | texParameter
  | texImage2D (w h : Int) (depthFormat : Bool)
  | fboBind
  | fboUnbind
  | fboAttach (texID attachment : Nat)
  | fboDetach (attachment : Nat)
  | deleteTextures (ids : List Nat)
  | drawBuffers (atts : List Nat)
  | checkStatus (ok : Bool)
  | clearColor
  | clearBits
  | clearDepth (d : Int)
  | depthFuncLEqual
deriving DecidableEq, Repr

/-- Ambient GL/driver state read (and, for the texture-name counter, advanced)
by the component: the externally owned viewport size
(`globalRendering->viewSizeX/Y`), a fresh-texture-name counter
(`glGenTextures` hands out `texCounter + 1`, so generated handles are never 0),
and the driver's verdict for `FBO::CheckStatus` (completeness is
driver-decided, so it is an input of the model). -/
structure GLContext where
  viewSizeX : Int
  viewSizeY : Int
  texCounter : Nat
  fboComplete : Bool
deriving DecidableEq, Repr

/-- The `GL::GeometryBuffer` object state.  `bufferTextureIDs` and
`bufferAttachments` are the two fixed-size arrays (handle 0 / tag 0 meaning
unallocated / none); `prevBufferSize`/`currBufferSize` are the last-realized
and desired sizes; `dead` and `bound` are the lifecycle and bound flags;
`fboValid` models `buffer.IsValid()` (structural validity of the owned FBO,
fixed at C++ construction and never changed by this component); `fboBound`
tracks whether the owned FBO is currently bound. -/
structure GeometryBuffer where
  bufferTextureIDs : Fin ATTACHMENT_COUNT → Nat
  bufferAttachments : Fin ATTACHMENT_COUNT → Nat
  prevBufferSize : Int2
  currBufferSize : Int2
  dead : Bool
  bound : Bool
  fboValid : Bool
  fboBound : Bool
deriving DecidableEq

namespace GeometryBuffer

/-- Outcome of an operation that completed without an assertion failure: the
new object state, the new ambient GL state, the trace of GL calls issued, and
the C++ return value. -/
structure Out (α : Type) where
  state : GeometryBuffer
  ctx : GLContext
  trace : List GLEvent
  ret : α
deriving DecidableEq

/-- Equality of operation results is decidable (used to evaluate the model at
concrete inputs). -/
instance {ε α : Type} [DecidableEq ε] [DecidableEq α] :
    DecidableEq (Except ε α) := fun x y =>
  match x, y with
  | .error a, .error b =>
      if h : a = b then .isTrue (by rw [h]) else .isFalse (by simp [h])
  | .ok a, .ok b =>
      if h : a = b then .isTrue (by rw [h]) else .isFalse (by simp [h])
  | .error _, .ok _ => .isFalse (by simp)
  | .ok _, .error _ => .isFalse (by simp)

/-- `GetWantedSize(allowed)`: the current viewport size if `allowed`, else
`(0, 0)`. -/
def GetWantedSize (ctx : GLContext) (allowed : Bool) : Int2 :=
  if allowed then ⟨ctx.viewSizeX, ctx.viewSizeY⟩ else ⟨0, 0⟩

/-- Modelled from the spec: `HasAttachments` is declared in the missing
`GeometryBuffer.h`; per spec section 4.5, it holds when any slot's attachment
tag is non-empty. -/
def HasAttachments (gb : GeometryBuffer) : Bool :=
  (List.finRange ATTACHMENT_COUNT).any (fun n => gb.bufferAttachments n != 0)

/-- `Init(ctor)`: asserts `!dead || !ctor` ("if dead, this must be a non-ctor
reload"), zeroes both slot arrays (`memset`), sets
`prevBufferSize = GetWantedSize(false)` and
`currBufferSize = GetWantedSize(true)`, and marks the instance alive and
unbound. -/
def Init (gb : GeometryBuffer) (ctx : GLContext) (ctor : Bool) :
    Except String GeometryBuffer :=
  if gb.dead && ctor then
    .error "assert failed: !dead || !ctor"
  else
    .ok { gb with
      bufferTextureIDs := fun _ => 0
      bufferAttachments := fun _ => 0
      prevBufferSize := GetWantedSize ctx false
      currBufferSize := GetWantedSize ctx true
      dead := false
      bound := false }

/-- `DetachTextures(init)`: returns immediately during init; otherwise binds
the FBO, detaches each color attachment point individually, detaches the depth
attachment, unbinds, deletes all textures in one call, and zeroes both slot
arrays. -/
def DetachTextures (gb : GeometryBuffer) (init : Bool) :
    GeometryBuffer × List GLEvent :=
  if init then
    (gb, [])
  else
    ({ gb with
         bufferTextureIDs := fun _ => 0
         bufferAttachments := fun _ => 0
         fboBound := false },
     GLEvent.fboBind ::
       (List.range (ATTACHMENT_COUNT - 1)).map
         (fun i => GLEvent.fboDetach (GL_COLOR_ATTACHMENT0 + i)) ++
       [GLEvent.fboDetach GL_DEPTH_ATTACHMENT, GLEvent.fboUnbind,
        GLEvent.deleteTextures
          ((List.finRange ATTACHMENT_COUNT).map gb.bufferTextureIDs)])

/-- `Kill(dtor)`: if already dead, asserts `dtor` and is otherwise a no-op;
else detaches all textures when the FBO is valid and marks the instance
dead. -/
def Kill (gb : GeometryBuffer) (dtor : Bool) :
    Except String (GeometryBuffer × List GLEvent) :=
  if gb.dead then
    if dtor then .ok (gb, []) else .error "assert failed: dtor"
  else
    let (gb2, tr) := if gb.fboValid then DetachTextures gb false else (gb, [])
    .ok ({ gb2 with dead := true }, tr)

/-- `Clear()`: asserts `bound`, then clears color and depth.  A `const`
method: the object state is unchanged, only GL calls are issued. -/
def Clear (gb : GeometryBuffer) : Except String (List GLEvent) :=
  if gb.bound then
    .ok [GLEvent.clearColor, GLEvent.clearBits]
  else
    .error "assert failed: bound"

/-- `SetDepthRange(near, far)` (the enabled `#else` branch): sets the depth
clear value to `max(near, far)` and the depth comparison to `GL_LEQUAL`.  No
assertion, no object-state change. -/
def SetDepthRange (nearDepth farDepth : Int) : List GLEvent :=
  [GLEvent.clearDepth (max nearDepth farDepth), GLEvent.depthFuncLEqual]

/-- Accumulator for the allocation loop of `Create`: the two slot arrays being
filled, the texture-name counter, and the trace so far. -/
structure CreateAcc where
  ids : Fin ATTACHMENT_COUNT → Nat
  atts : Fin ATTACHMENT_COUNT → Nat
  texCounter : Nat
  trace : List GLEvent

/-- One iteration of the first loop of `Create`: generate a texture, bind it,
set the four wrap/filter parameters; for the depth slot additionally set the
depth-texture mode and allocate a `GL_DEPTH_COMPONENT32F` image, recording
`GL_DEPTH_ATTACHMENT`; for every other slot allocate an RGBA image, recording
`GL_COLOR_ATTACHMENT0 + n`. -/
def createAllocStep (size : Int2) (acc : CreateAcc) (n : Fin ATTACHMENT_COUNT) :
    CreateAcc :=
  let newId := acc.texCounter + 1
  let common : List GLEvent :=
    [.genTexture newId, .bindTexture newId,
     .texParameter, .texParameter, .texParameter, .texParameter]
  if (n : Nat) = ATTACHMENT_ZVALTEX then
    { ids := Function.update acc.ids n newId
      atts := Function.update acc.atts n GL_DEPTH_ATTACHMENT
      texCounter := newId
      trace := acc.trace ++ common ++
        [.texParameter, .texImage2D size.x size.y true] }
  else
    { ids := Function.update acc.ids n newId
      atts := Function.update acc.atts n (GL_COLOR_ATTACHMENT0 + (n : Nat))
      texCounter := newId
      trace := acc.trace ++ common ++ [.texImage2D size.x size.y false] }

/-- The first loop of `Create`, over `n = 0 .. ATTACHMENT_COUNT - 1`. -/
def createAllocLoop (size : Int2) (acc : CreateAcc) : CreateAcc :=
  (List.finRange ATTACHMENT_COUNT).foldl (createAllocStep size) acc

/-- `Create(size)`: run the allocation loop for all slots; then (second loop)
bind the FBO and attach the slots' textures in descending index order; unbind
the 2D texture target; declare the first `ATTACHMENT_COUNT - 1` recorded
attachment points as draw buffers; assert `buffer.IsValid()`; query
`CheckStatus` for the return value; unbind the FBO. -/
def Create (gb : GeometryBuffer) (ctx : GLContext) (size : Int2) :
    Except String (Out Bool) :=
  let acc := createAllocLoop size
    ⟨gb.bufferTextureIDs, gb.bufferAttachments, ctx.texCounter, []⟩
  let attachEvents :=
    (List.finRange ATTACHMENT_COUNT).reverse.map
      (fun i => GLEvent.fboAttach (acc.ids i) (acc.atts i))
  let drawBufs :=
    ((List.finRange ATTACHMENT_COUNT).take (ATTACHMENT_COUNT - 1)).map acc.atts
  if gb.fboValid then
    .ok { state := { gb with
            bufferTextureIDs := acc.ids
            bufferAttachments := acc.atts
            fboBound := false }
          ctx := { ctx with texCounter := acc.texCounter }
          trace := acc.trace ++ GLEvent.fboBind :: attachEvents ++
            [GLEvent.bindTexture 0, GLEvent.drawBuffers drawBufs,
             GLEvent.checkStatus ctx.fboComplete, GLEvent.fboUnbind]
          ret := ctx.fboComplete }
  else
    .error "assert failed: buffer.IsValid()"

/-- `Update(init)`: recompute `currBufferSize = GetWantedSize(true)`; return
`false` if the FBO is not valid; if there are attachments, return `true` when
`prevBufferSize == currBufferSize`, else `DetachTextures(init)`; finally
`return Create(prevBufferSize = currBufferSize)`. -/
def Update (gb0 : GeometryBuffer) (ctx : GLContext) (init : Bool) :
    Except String (Out Bool) :=
  let gb := { gb0 with currBufferSize := GetWantedSize ctx true }
  if gb.fboValid = false then
    .ok ⟨gb, ctx, [], false⟩
  else if HasAttachments gb then
    if gb.prevBufferSize = gb.currBufferSize then
      .ok ⟨gb, ctx, [], true⟩
    else
      let (gb2, tr) := DetachTextures gb init
      match Create { gb2 with prevBufferSize := gb2.currBufferSize } ctx
              gb2.currBufferSize with
      | .ok out => .ok { out with trace := tr ++ out.trace }
      | .error e => .error e
  else
    Create { gb with prevBufferSize := gb.currBufferSize } ctx
      gb.currBufferSize

/-! Trace-event classifiers used to state ordering and frame properties. -/

/-- Whether an event is a `glTexImage2D` image-allocation call. -/
def isTexImageEvt : GLEvent → Bool
  | .texImage2D _ _ _ => true
  | _ => false

/-- Whether an event is a `glGenTextures` call. -/
def isGenEvt : GLEvent → Bool
  | .genTexture _ => true
  | _ => false

/-- Whether an event is an `FBO::AttachTexture` call. -/
def isAttachEvt : GLEvent → Bool
  | .fboAttach _ _ => true
  | _ => false

/-- Whether an event is an `FBO::Bind` call. -/
def isFboBindEvt : GLEvent → Bool
  | .fboBind => true
  | _ => false

/-- Whether an event is an `FBO::Detach` call. -/
def isDetachEvt : GLEvent → Bool
  | .fboDetach _ => true
  | _ => false

/-- Whether an event is a `glDeleteTextures` call. -/
def isDeleteEvt : GLEvent → Bool
  | .deleteTextures _ => true
  | _ => false

/-! Concrete sample objects used by witnesses and counterexamples. -/

/-- A freshly constructed instance: empty slots, zero sizes, alive, unbound,
with a structurally valid FBO. -/
def gbFresh : GeometryBuffer where
  bufferTextureIDs := fun _ => 0
  bufferAttachments := fun _ => 0
  prevBufferSize := ⟨0, 0⟩
  currBufferSize := ⟨0, 0⟩
  dead := false
  bound := false
  fboValid := true
  fboBound := false

/-- Like `gbFresh`, but the owned FBO was never validly constructed. -/
def gbNoFBO : GeometryBuffer := { gbFresh with fboValid := false }

/-- A sample GL context: viewport 100x200, fresh texture counter, a driver
that reports the framebuffer complete. -/
def ctx0 : GLContext := ⟨100, 200, 0, true⟩

/-- Like `ctx0`, but the driver fails the completeness check. -/
def ctxBad : GLContext := ⟨100, 200, 0, false⟩

/-- Default outcome used when projecting out of an `Except`. -/
def outDflt : Out Bool := ⟨gbFresh, ctx0, [], false⟩

/-- Projects the outcome out of a non-failing operation
(`outDflt` for an assertion failure). -/
def outOf : Except String (Out Bool) → Out Bool
  | .ok o => o
  | .error _ => outDflt

/-- The state left behind by `Kill(false)` on `gbFresh`. -/
def killedState : GeometryBuffer :=
  match Kill gbFresh false with
  | .ok p => p.1
  | .error _ => gbFresh

/-- The state left behind by `Init(true)` on `gbFresh` under `ctx0`. -/
def initState : GeometryBuffer :=
  match Init gbFresh ctx0 true with
  | .ok g => g
  | .error _ => gbFresh

/-- The outcome of the first `Update(true)` on `gbFresh` under `ctx0`. -/
def upd1 : Out Bool := outOf (Update gbFresh ctx0 true)

/-- The outcome of the first `Update(true)` on `gbFresh` under `ctxBad`
(the driver rejects completeness, so `Create` fails). -/
def updBad : Out Bool := outOf (Update gbFresh ctxBad true)

/-- A context with a different viewport than `ctx0` and the texture counter
left by `upd1`. -/
def ctxResize : GLContext := ⟨50, 60, 6, true⟩

/-- Whether an operation completed without an assertion failure. -/
def isOkE {α : Type} : Except String α → Bool
  | .ok _ => true
  | .error _ => false

/-- The GL trace emitted by `Kill(false)` on `gbFresh`. -/
def killTrace : List GLEvent :=
  match Kill gbFresh false with
  | .ok p => p.2
  | .error _ => []

/-- The outcome of `Create` on `gbFresh` at size 100x200 under `ctx0`. -/
def cre1 : Out Bool := outOf (Create gbFresh ctx0 ⟨100, 200⟩)

/-- The outcome of a second `Update(true)` after `upd1`, under the resized
viewport of `ctxResize`. -/
def upd2 : Out Bool := outOf (Update upd1.state ctxResize true)

/-! Evaluation lemmas for the allocation loop of `Create`. -/

lemma finRange_eq :
    List.finRange ATTACHMENT_COUNT =
      [⟨0, by decide⟩, ⟨1, by decide⟩, ⟨2, by decide⟩,
       ⟨3, by decide⟩, ⟨4, by decide⟩, ⟨5, by decide⟩] := by decide

lemma loop_texCounter (size : Int2) (acc : CreateAcc) :
    (createAllocLoop size acc).texCounter = acc.texCounter + 6 := by
  simp +decide [createAllocLoop, finRange_eq, createAllocStep]

lemma loop_ids (size : Int2) (acc : CreateAcc) (n : Fin ATTACHMENT_COUNT) :
    (createAllocLoop size acc).ids n = acc.texCounter + (n : Nat) + 1 := by
  fin_cases n <;>
    simp +decide [createAllocLoop, finRange_eq, createAllocStep,
                  Function.update]

lemma loop_atts (size : Int2) (acc : CreateAcc) (n : Fin ATTACHMENT_COUNT) :
    (createAllocLoop size acc).atts n =
      if (n : Nat) = ATTACHMENT_ZVALTEX then GL_DEPTH_ATTACHMENT
      else GL_COLOR_ATTACHMENT0 + (n : Nat) := by
  fin_cases n <;>
    simp +decide [createAllocLoop, finRange_eq, createAllocStep,
                  Function.update]

lemma loop_ids_ne_zero (size : Int2) (acc : CreateAcc)
    (n : Fin ATTACHMENT_COUNT) : (createAllocLoop size acc).ids n ≠ 0 := by
  rw [loop_ids]; omega

lemma loop_atts_ne_zero (size : Int2) (acc : CreateAcc)
    (n : Fin ATTACHMENT_COUNT) : (createAllocLoop size acc).atts n ≠ 0 := by
  rw [loop_atts]
  split <;> simp [GL_DEPTH_ATTACHMENT, GL_COLOR_ATTACHMENT0]

lemma loop_trace_counts (size : Int2) (acc : CreateAcc) :
    ((createAllocLoop size acc).trace).countP isTexImageEvt =
      acc.trace.countP isTexImageEvt + 6 ∧
    ((createAllocLoop size acc).trace).countP isGenEvt =
      acc.trace.countP isGenEvt + 6 ∧
    ((createAllocLoop size acc).trace).countP isAttachEvt =
      acc.trace.countP isAttachEvt ∧
    ((createAllocLoop size acc).trace).countP isFboBindEvt =
      acc.trace.countP isFboBindEvt ∧
    ((createAllocLoop size acc).trace).countP isDetachEvt =
      acc.trace.countP isDetachEvt ∧
    ((createAllocLoop size acc).trace).countP isDeleteEvt =
      acc.trace.countP isDeleteEvt := by
  refine ⟨?_, ?_, ?_, ?_, ?_, ?_⟩ <;>
    simp +decide [createAllocLoop, finRange_eq, createAllocStep,
                  List.countP_append, List.countP_cons, isTexImageEvt,
                  isGenEvt, isAttachEvt, isFboBindEvt, isDetachEvt,
                  isDeleteEvt]

lemma loop_gen_mem (size : Int2) (acc : CreateAcc) (n : Fin ATTACHMENT_COUNT) :
    GLEvent.genTexture (acc.texCounter + (n : Nat) + 1) ∈
      (createAllocLoop size acc).trace := by
  fin_cases n <;>
    simp +decide +arith [createAllocLoop, finRange_eq, createAllocStep]

/-! Characterization of `Create` and of the branches of `Update`. -/

lemma hasAttachments_mk (ids atts : Fin ATTACHMENT_COUNT → Nat)
    (p c : Int2) (d b v fb : Bool) :
    HasAttachments ⟨ids, atts, p, c, d, b, v, fb⟩ =
      (List.finRange ATTACHMENT_COUNT).any (fun n => atts n != 0) := rfl

lemma create_post (gb : GeometryBuffer) (ctx : GLContext) (size : Int2)
    (out : Out Bool) (h : Create gb ctx size = .ok out) :
    out.state.currBufferSize = gb.currBufferSize ∧
    out.state.prevBufferSize = gb.prevBufferSize ∧
    out.state.fboValid = gb.fboValid ∧
    (∀ n : Fin ATTACHMENT_COUNT,
      out.state.bufferTextureIDs n ≠ 0 ∧ out.state.bufferAttachments n ≠ 0) ∧
    HasAttachments out.state = true ∧
    out.ctx.viewSizeX = ctx.viewSizeX ∧ out.ctx.viewSizeY = ctx.viewSizeY ∧
    out.ret = ctx.fboComplete := by
  unfold Create at h
  by_cases hv : gb.fboValid = true
  · simp [hv] at h
    subst h
    refine ⟨rfl, rfl, ?_, ?_, ?_, rfl, rfl, rfl⟩
    · simp [hv]
    · intro n
      exact ⟨loop_ids_ne_zero _ _ n, loop_atts_ne_zero _ _ n⟩
    · have h0 := loop_atts_ne_zero size
        ⟨gb.bufferTextureIDs, gb.bufferAttachments, ctx.texCounter, []⟩
        ⟨0, by decide⟩
      simp [HasAttachments, finRange_eq, List.any_eq_true]
      exact Or.inl (by simpa using h0)
  · simp [hv] at h

lemma update_of_invalid (gb : GeometryBuffer) (ctx : GLContext) (init : Bool)
    (h : gb.fboValid = false) :
    Update gb ctx init =
      .ok ⟨{ gb with currBufferSize := GetWantedSize ctx true },
           ctx, [], false⟩ := by
  unfold Update; simp [h]

lemma update_of_att_eq (gb : GeometryBuffer) (ctx : GLContext) (init : Bool)
    (hv : gb.fboValid = true) (ha : HasAttachments gb = true)
    (he : gb.prevBufferSize = GetWantedSize ctx true) :
    Update gb ctx init =
      .ok ⟨{ gb with currBufferSize := GetWantedSize ctx true },
           ctx, [], true⟩ := by
  have ha2 : (List.finRange ATTACHMENT_COUNT).any
      (fun n => gb.bufferAttachments n != 0) = true := ha
  unfold Update; simp [hv, he, hasAttachments_mk, ha2]

lemma update_of_noatt (gb : GeometryBuffer) (ctx : GLContext) (init : Bool)
    (hv : gb.fboValid = true) (ha : HasAttachments gb = false) :
    Update gb ctx init =
      Create { gb with currBufferSize := GetWantedSize ctx true,
                       prevBufferSize := GetWantedSize ctx true } ctx
        (GetWantedSize ctx true) := by
  have ha2 : (List.finRange ATTACHMENT_COUNT).any
      (fun n => gb.bufferAttachments n != 0) = false := ha
  unfold Update; simp [hv, hasAttachments_mk, ha2]

lemma except_match_eta (e : Except String (Out Bool)) :
    (match e with
     | Except.ok out =>
         Except.ok (⟨out.state, out.ctx, out.trace, out.ret⟩ : Out Bool)
     | Except.error msg => Except.error msg) = e := by
  cases e <;> rfl

lemma update_of_att_ne_init (gb : GeometryBuffer) (ctx : GLContext)
    (hv : gb.fboValid = true) (ha : HasAttachments gb = true)
    (hne : gb.prevBufferSize ≠ GetWantedSize ctx true) :
    Update gb ctx true =
      Create { gb with currBufferSize := GetWantedSize ctx true,
                       prevBufferSize := GetWantedSize ctx true } ctx
        (GetWantedSize ctx true) := by
  have ha2 : (List.finRange ATTACHMENT_COUNT).any
      (fun n => gb.bufferAttachments n != 0) = true := ha
  unfold Update
  simp [hv, hne, hasAttachments_mk, ha2, DetachTextures]
  rw [except_match_eta]

lemma update_noop (s : GeometryBuffer) (cx : GLContext) (i : Bool)
    (hv : s.fboValid = true) (ha : HasAttachments s = true)
    (hp : s.prevBufferSize = GetWantedSize cx true)
    (hc : s.currBufferSize = GetWantedSize cx true) :
    Update s cx i = .ok ⟨s, cx, [], true⟩ := by
  rw [update_of_att_eq s cx i hv ha hp]
  have h1 : { s with currBufferSize := GetWantedSize cx true } = s := by
    rw [← hc]
  rw [h1]

lemma update_post (gb : GeometryBuffer) (ctx : GLContext) (init : Bool)
    (out : Out Bool) (hv : gb.fboValid = true)
    (h : Update gb ctx init = .ok out) :
    out.state.currBufferSize = GetWantedSize ctx true ∧
    out.state.prevBufferSize = GetWantedSize ctx true ∧
    HasAttachments out.state = true ∧
    out.state.fboValid = true ∧
    out.ctx.viewSizeX = ctx.viewSizeX ∧
    out.ctx.viewSizeY = ctx.viewSizeY ∧
    (out.ret = false → ∀ n : Fin ATTACHMENT_COUNT,
        out.state.bufferTextureIDs n ≠ 0 ∧
        out.state.bufferAttachments n ≠ 0) := by
  by_cases ha : HasAttachments gb = true
  · by_cases he : gb.prevBufferSize = GetWantedSize ctx true
    · rw [update_of_att_eq gb ctx init hv ha he] at h
      injection h with h2
      subst h2
      refine ⟨rfl, he, ha, hv, rfl, rfl, ?_⟩
      intro hf
      simp at hf
    · -- detach-then-recreate: split on the init flag
      cases init with
      | true =>
        rw [update_of_att_ne_init gb ctx hv ha he] at h
        have hp := create_post _ _ _ _ h
        exact ⟨hp.1, hp.2.1, hp.2.2.2.2.1, hp.2.2.1.trans hv,
               hp.2.2.2.2.2.1, hp.2.2.2.2.2.2.1, fun _ => hp.2.2.2.1⟩
      | false =>
        have ha2 : (List.finRange ATTACHMENT_COUNT).any
            (fun n => gb.bufferAttachments n != 0) = true := ha
        unfold Update at h
        simp [hv, he, hasAttachments_mk, ha2, DetachTextures] at h
        split at h
        next cout hC =>
          injection h with h2
          subst h2
          have hp := create_post _ _ _ _ hC
          exact ⟨hp.1, hp.2.1, hp.2.2.2.2.1,
                 (hp.2.2.1 : _ = true),
                 hp.2.2.2.2.2.1, hp.2.2.2.2.2.2.1, fun _ => hp.2.2.2.1⟩
        next msg hC => exact absurd h (by simp)
  · have ha0 : HasAttachments gb = false := by
      cases hb : HasAttachments gb
      · rfl
      · exact absurd hb ha
    rw [update_of_noatt gb ctx init hv ha0] at h
    have hp := create_post _ _ _ _ h
    exact ⟨hp.1, hp.2.1, hp.2.2.2.2.1, hp.2.2.1.trans hv,
           hp.2.2.2.2.2.1, hp.2.2.2.2.2.2.1, fun _ => hp.2.2.2.1⟩

lemma create_ok (gb : GeometryBuffer) (ctx : GLContext) (size : Int2)
    (hv : gb.fboValid = true) :
    ∃ out, Create gb ctx size = .ok out := by
  unfold Create; simp [hv]

lemma update_total (gb : GeometryBuffer) (ctx : GLContext) (init : Bool) :
    ∃ out, Update gb ctx init = .ok out ∧
      out.state.currBufferSize = GetWantedSize ctx true := by
  by_cases hv : gb.fboValid = true
  · by_cases ha : HasAttachments gb = true
    · by_cases he : gb.prevBufferSize = GetWantedSize ctx true
      · exact ⟨_, update_of_att_eq gb ctx init hv ha he, rfl⟩
      · cases init with
        | true =>
          obtain ⟨out, hC⟩ := create_ok
            { gb with currBufferSize := GetWantedSize ctx true,
                      prevBufferSize := GetWantedSize ctx true } ctx
            (GetWantedSize ctx true) hv
          refine ⟨out, (update_of_att_ne_init gb ctx hv ha he).trans hC, ?_⟩
          exact (create_post _ _ _ _ hC).1
        | false =>
          have ha2 : (List.finRange ATTACHMENT_COUNT).any
              (fun n => gb.bufferAttachments n != 0) = true := ha
          unfold Update
          simp [hv, he, hasAttachments_mk, ha2, DetachTextures]
          obtain ⟨out, hC⟩ := create_ok
            { gb with bufferTextureIDs := fun _ => 0,
                      bufferAttachments := fun _ => 0,
                      currBufferSize := GetWantedSize ctx true,
                      fboValid := true,
                      fboBound := false,
                      prevBufferSize := GetWantedSize ctx true } ctx
            (GetWantedSize ctx true) rfl
          rw [hC]
          exact ⟨_, rfl, ((create_post _ _ _ _ hC).1 : _)⟩
    · have ha0 : HasAttachments gb = false := by
        cases hb : HasAttachments gb
        · rfl
        · exact absurd hb ha
      obtain ⟨out, hC⟩ := create_ok
        { gb with currBufferSize := GetWantedSize ctx true,
                  prevBufferSize := GetWantedSize ctx true } ctx
        (GetWantedSize ctx true) hv
      refine ⟨out, (update_of_noatt gb ctx init hv ha0).trans hC, ?_⟩
      exact (create_post _ _ _ _ hC).1
  · have hv0 : gb.fboValid = false := by
      cases hb : gb.fboValid
      · rfl
      · exact absurd hb hv
    exact ⟨_, update_of_invalid gb ctx init hv0, rfl⟩

lemma post_init_shape (gb gb1 : GeometryBuffer) (ctx : GLContext)
    (ctor : Bool) (h : Init gb ctx ctor = .ok gb1) :
    HasAttachments gb1 = false ∧ gb1.fboValid = gb.fboValid := by
  unfold Init at h
  by_cases hd : (gb.dead && ctor) = true
  · rw [if_pos hd] at h
    exact absurd h (by simp)
  · rw [if_neg hd] at h
    injection h with h1
    subst h1
    exact ⟨by simp [HasAttachments, finRange_eq], rfl⟩

lemma create_counts (gb : GeometryBuffer) (ctx : GLContext) (size : Int2)
    (hv : gb.fboValid = true) :
    ∃ out, Create gb ctx size = .ok out ∧
      out.trace.countP isGenEvt = ATTACHMENT_COUNT ∧
      out.trace.countP isTexImageEvt = ATTACHMENT_COUNT ∧
      out.trace.countP isDetachEvt = 0 ∧
      out.trace.countP isDeleteEvt = 0 ∧
      out.ret = ctx.fboComplete := by
  have hc := loop_trace_counts size
    ⟨gb.bufferTextureIDs, gb.bufferAttachments, ctx.texCounter, []⟩
  unfold Create
  simp only [hv, if_true, reduceIte]
  refine ⟨_, rfl, ?_, ?_, ?_, ?_, rfl⟩ <;>
    simp [List.countP_append, List.countP_cons, finRange_eq, isGenEvt,
          isTexImageEvt, isDetachEvt, isDeleteEvt, ATTACHMENT_COUNT, hc.1,
          hc.2.1, hc.2.2.1, hc.2.2.2.1, hc.2.2.2.2.1, hc.2.2.2.2.2]

lemma create_fresh (gb : GeometryBuffer) (ctx : GLContext) (size : Int2)
    (out : Out Bool) (h : Create gb ctx size = .ok out) :
    ∀ n : Fin ATTACHMENT_COUNT,
      out.state.bufferTextureIDs n = ctx.texCounter + (n : Nat) + 1 ∧
      GLEvent.genTexture (out.state.bufferTextureIDs n) ∈ out.trace := by
  unfold Create at h
  by_cases hv : gb.fboValid = true
  · simp [hv] at h
    subst h
    intro n
    refine ⟨loop_ids size _ n, ?_⟩
    have h1 := loop_gen_mem size
      ⟨gb.bufferTextureIDs, gb.bufferAttachments, ctx.texCounter, []⟩ n
    rw [← loop_ids size
      ⟨gb.bufferTextureIDs, gb.bufferAttachments, ctx.texCounter, []⟩ n] at h1
    simp only [List.mem_append]
    exact Or.inl h1
  · simp [hv] at h

/-! Claim theorems. -/

/-- C1 (amended, corrected claim): the invariant check of `Init(ctor)` is
`assert(!dead || !ctor)`: over every combination of the prior alive/dead state
and the flag, it fails exactly when the instance is dead AND the call comes
from the construction path; `Init` on a dead instance is legal when and only
when it is NOT entered from construction, and `Init` on an alive instance is
always legal. -/
theorem c1_init_invariant_check (gb : GeometryBuffer) (ctx : GLContext)
    (ctor : Bool) :
    isOkE (Init gb ctx ctor) = false ↔ (gb.dead = true ∧ ctor = true) := by
  unfold Init
  cases hd : gb.dead <;> cases hc : ctor <;> simp [isOkE]

/-- C1 counterexample: the claim, as stated, predicts an invariant failure for
an alive instance with `isConstruction = false`, and legality for a dead
instance entering from construction; the code accepts the former and rejects
the latter. -/
theorem c1_claim_counterexample :
    isOkE (Init gbFresh ctx0 false) = true ∧
    isOkE (Init { gbFresh with dead := true } ctx0 true) = false := by decide

/-- C2 counterexample: `Kill(false)` on a live instance completes, leaving a
dead instance; a subsequent `Update(false)` is accepted without any invariant
violation and silently performs a full reallocation (`ATTACHMENT_COUNT`
`glGenTextures` calls), contradicting the claim that every post-`Kill`
operation is rejected. -/
theorem c2_claim_counterexample :
    isOkE (Kill gbFresh false) = true ∧
    killedState.dead = true ∧
    isOkE (Update killedState ctx0 false) = true ∧
    (outOf (Update killedState ctx0 false)).trace.countP isGenEvt =
      ATTACHMENT_COUNT := by decide

/-- C2 (amended, corrected claim): an `Update` invoked after `Kill` has
completed is NOT rejected: `Update` contains no liveness invariant check at
all and never fails an assertion, for any state left behind by `Kill` (when
the surface is valid it silently re-runs the allocation; only `Clear` while
unbound and a repeated `Kill` outside destruction fail assertions, neither of
which consults the dead flag for a live-after-kill check). -/
theorem c2_update_after_kill_accepted (gb gb2 : GeometryBuffer)
    (ctx : GLContext) (dtor init : Bool) (tr : List GLEvent)
    (hk : Kill gb dtor = .ok (gb2, tr)) :
    ∃ out, Update gb2 ctx init = .ok out := by
  obtain ⟨out, h, _⟩ := update_total gb2 ctx init
  exact ⟨out, h⟩

/-- C2 witness: the amended claim at `gbFresh`, killed outside destruction and
updated under `ctx0`. -/
theorem c2_amended_witness :
    Kill gbFresh false = .ok (killedState, killTrace) ∧
    (∃ out, Update killedState ctx0 false = .ok out) :=
  ⟨by decide,
   c2_update_after_kill_accepted gbFresh killedState ctx0 false false
     killTrace (by decide)⟩

/-- C3 counterexample: `Update(false)` under viewport (100, 200) recomputes
`currBufferSize` as (100, 200), not (0, 0): the boolean argument of `Update`
is the init flag forwarded to `DetachTextures`, not a resize-permission flag
collapsing the wanted size. -/
theorem c3_claim_counterexample :
    isOkE (Update gbFresh ctx0 false) = true ∧
    (outOf (Update gbFresh ctx0 false)).state.currBufferSize = ⟨100, 200⟩ ∧
    (⟨100, 200⟩ : Int2) ≠ ⟨0, 0⟩ := by decide

/-- C3 (amended, corrected claim): every call to `Update`, whatever its
boolean argument, recomputes `desiredSize` (`currBufferSize`) as
`GetWantedSize(true)`, i.e. the current viewport size; the collapse to (0, 0)
is the behaviour of `GetWantedSize` itself when ITS permission flag is false,
which `Update` never passes for the recomputation. -/
theorem c3_update_recomputes_viewport (gb : GeometryBuffer) (ctx : GLContext)
    (init : Bool) :
    (∃ out, Update gb ctx init = .ok out ∧
       out.state.currBufferSize = ⟨ctx.viewSizeX, ctx.viewSizeY⟩) ∧
    GetWantedSize ctx false = ⟨0, 0⟩ := by
  refine ⟨?_, rfl⟩
  obtain ⟨out, h, hc⟩ := update_total gb ctx init
  exact ⟨out, h, hc⟩

/-- C4 counterexample: with a never-validly-constructed surface, `Update`
returns the recoverable boolean result `false` (an `ok` value, not an
abort/assert) — the first half of the claim ("aborts/asserts rather than a
recoverable boolean result") is false on the code. -/
theorem c4_claim_counterexample :
    Update gbNoFBO ctx0 true =
      .ok ⟨{ gbNoFBO with currBufferSize := ⟨100, 200⟩ },
           ctx0, [], false⟩ := by decide

/-- C4 (amended, corrected claim): if `Update` is called while the surface was
never validly constructed, the call returns immediately with the recoverable
boolean result `false` (no assertion fires), and no allocation or detachment
work is performed: the GL trace is empty and only `currBufferSize` is
recomputed. -/
theorem c4_invalid_surface_returns_false (gb : GeometryBuffer)
    (ctx : GLContext) (init : Bool) (h : gb.fboValid = false) :
    Update gb ctx init =
      .ok ⟨{ gb with currBufferSize := GetWantedSize ctx true },
           ctx, [], false⟩ :=
  update_of_invalid gb ctx init h

/-- C4 witness: the amended claim at `gbNoFBO` under `ctx0`. -/
theorem c4_witness :
    gbNoFBO.fboValid = false ∧
    Update gbNoFBO ctx0 true =
      .ok ⟨{ gbNoFBO with currBufferSize := GetWantedSize ctx0 true },
           ctx0, [], false⟩ :=
  ⟨rfl, c4_invalid_surface_returns_false gbNoFBO ctx0 true rfl⟩

/-- C5 (confirmed): for every viewport size (including one equal to the size
realized in a prior session), the first `Update` after `Init` on a validly
constructed surface performs a real allocation via `Create` — it issues
`ATTACHMENT_COUNT` `glGenTextures` and `glTexImage2D` calls and returns the
driver's completeness verdict — and never returns through the size-unchanged
fast path (which would issue no GL calls at all). -/
theorem c5_first_update_really_allocates (gb gb1 : GeometryBuffer)
    (ctxI ctxU : GLContext) (ctor init : Bool)
    (hv : gb.fboValid = true) (hinit : Init gb ctxI ctor = .ok gb1) :
    ∃ out, Update gb1 ctxU init = .ok out ∧
      out.trace.countP isGenEvt = ATTACHMENT_COUNT ∧
      out.trace.countP isTexImageEvt = ATTACHMENT_COUNT ∧
      out.ret = ctxU.fboComplete := by
  obtain ⟨ha, hvv⟩ := post_init_shape gb gb1 ctxI ctor hinit
  have hv1 : gb1.fboValid = true := hvv.trans hv
  rw [update_of_noatt gb1 ctxU init hv1 ha]
  obtain ⟨out, hC, h1, h2, _, _, h5⟩ :=
    create_counts
      { gb1 with currBufferSize := GetWantedSize ctxU true,
                 prevBufferSize := GetWantedSize ctxU true } ctxU
      (GetWantedSize ctxU true) hv1
  exact ⟨out, hC, h1, h2, h5⟩

/-- C5 witness: `gbFresh` initialised and then updated under the same
viewport as the prior session (`ctx0` both times). -/
theorem c5_witness :
    gbFresh.fboValid = true ∧
    Init gbFresh ctx0 true = .ok initState ∧
    (∃ out, Update initState ctx0 false = .ok out ∧
       out.trace.countP isGenEvt = ATTACHMENT_COUNT ∧
       out.trace.countP isTexImageEvt = ATTACHMENT_COUNT ∧
       out.ret = ctx0.fboComplete) :=
  ⟨rfl, by decide,
   c5_first_update_really_allocates gbFresh initState ctx0 ctx0 true false
     rfl (by decide)⟩

/-- C6 (confirmed): for every pair of consecutive `Update` calls with an
unchanged wanted size (valid surface), the second call is a no-op returning
success: it issues no GL calls (empty trace, so no allocation work), leaves
the whole object state — slot handles, attachment tags and both stored
sizes — and the GL context unchanged, and returns `true`. -/
theorem c6_second_update_noop (gb : GeometryBuffer) (ctx : GLContext)
    (i1 i2 : Bool) (out1 : Out Bool) (hv : gb.fboValid = true)
    (h1 : Update gb ctx i1 = .ok out1) :
    Update out1.state out1.ctx i2 = .ok ⟨out1.state, out1.ctx, [], true⟩ := by
  obtain ⟨hc, hp, ha, hv1, hx, hy, _⟩ := update_post gb ctx i1 out1 hv h1
  apply update_noop _ _ _ hv1 ha
  · rw [hp]; simp [GetWantedSize, hx, hy]
  · rw [hc]; simp [GetWantedSize, hx, hy]

/-- C6 witness: `gbFresh` updated twice under an unchanged viewport. -/
theorem c6_witness :
    gbFresh.fboValid = true ∧
    Update gbFresh ctx0 true = .ok upd1 ∧
    Update upd1.state upd1.ctx false =
      .ok ⟨upd1.state, upd1.ctx, [], true⟩ :=
  ⟨rfl, by decide,
   c6_second_update_noop gbFresh ctx0 true false upd1 rfl (by decide)⟩

/-- C7 (confirmed): every `Update` on a valid surface that returns leaves
`prevBufferSize = currBufferSize` (the recreation path stores the new desired
size regardless of the `Create` result), and if the call reported failure
(`ret = false`, which on a valid surface only the recreation path can), the
next `Update` with an unchanged wanted size performs no retry: it is a no-op
with an empty trace, returning success with the state unchanged. -/
theorem c7_failed_create_not_retried (gb : GeometryBuffer) (ctx : GLContext)
    (i1 i2 : Bool) (out : Out Bool) (hv : gb.fboValid = true)
    (h : Update gb ctx i1 = .ok out) :
    out.state.prevBufferSize = out.state.currBufferSize ∧
    (out.ret = false →
       Update out.state out.ctx i2 = .ok ⟨out.state, out.ctx, [], true⟩) := by
  obtain ⟨hc, hp, ha, hv1, hx, hy, _⟩ := update_post gb ctx i1 out hv h
  refine ⟨hp.trans hc.symm, fun _ => ?_⟩
  apply update_noop _ _ _ hv1 ha
  · rw [hp]; simp [GetWantedSize, hx, hy]
  · rw [hc]; simp [GetWantedSize, hx, hy]

/-- C7 witness: under `ctxBad` the driver fails the completeness check, so the
first `Update` reports failure; the claim instance shows the bookkeeping was
still advanced and the follow-up `Update` does not retry. -/
theorem c7_witness :
    gbFresh.fboValid = true ∧
    Update gbFresh ctxBad true = .ok updBad ∧
    (updBad.state.prevBufferSize = updBad.state.currBufferSize ∧
     (updBad.ret = false →
        Update updBad.state updBad.ctx false =
          .ok ⟨updBad.state, updBad.ctx, [], true⟩)) :=
  ⟨rfl, by decide,
   c7_failed_create_not_retried gbFresh ctxBad true false updBad rfl
     (by decide)⟩

/-- C8 (confirmed): in every execution of `Create` that returns, the trace
splits as `A ++ fboBind :: B` where phase `A` contains all `ATTACHMENT_COUNT`
image allocations (`glTexImage2D`) and texture generations and no attachment
call and no surface bind, and phase `B` (after the single surface bind)
contains no allocation: allocation strictly precedes binding and attachment,
with no interleaving.  Every slot's image is attached to its recorded
attachment point during `B`, and the final GL call is the surface unbind, the
surface being left unbound. -/
theorem c8_create_ordering (gb : GeometryBuffer) (ctx : GLContext)
    (size : Int2) (out : Out Bool) (h : Create gb ctx size = .ok out) :
    ∃ A B : List GLEvent,
      out.trace = A ++ GLEvent.fboBind :: B ∧
      A.countP isTexImageEvt = ATTACHMENT_COUNT ∧
      A.countP isGenEvt = ATTACHMENT_COUNT ∧
      A.countP isAttachEvt = 0 ∧
      A.countP isFboBindEvt = 0 ∧
      B.countP isTexImageEvt = 0 ∧
      B.countP isGenEvt = 0 ∧
      (∀ n : Fin ATTACHMENT_COUNT,
        GLEvent.fboAttach (out.state.bufferTextureIDs n)
          (out.state.bufferAttachments n) ∈ B) ∧
      out.trace.getLast? = some GLEvent.fboUnbind ∧
      out.state.fboBound = false := by
  have hcc := loop_trace_counts size
    ⟨gb.bufferTextureIDs, gb.bufferAttachments, ctx.texCounter, []⟩
  unfold Create at h
  by_cases hv : gb.fboValid = true
  · simp [hv] at h
    subst h
    refine ⟨_, _, rfl, ?_, ?_, ?_, ?_, ?_, ?_, ?_, ?_, rfl⟩
    · simpa [ATTACHMENT_COUNT] using hcc.1
    · simpa [ATTACHMENT_COUNT] using hcc.2.1
    · simpa using hcc.2.2.1
    · simpa using hcc.2.2.2.1
    · simp [finRange_eq, List.countP_append, List.countP_cons, isTexImageEvt]
    · simp [finRange_eq, List.countP_append, List.countP_cons, isGenEvt]
    · intro n
      fin_cases n <;> simp [finRange_eq]
    · simp [finRange_eq]
  · simp [hv] at h

/-- C8 witness: a concrete `Create` at size 100x200. -/
theorem c8_witness :
    Create gbFresh ctx0 ⟨100, 200⟩ = .ok cre1 ∧
    (∃ A B : List GLEvent,
      cre1.trace = A ++ GLEvent.fboBind :: B ∧
      A.countP isTexImageEvt = ATTACHMENT_COUNT ∧
      A.countP isGenEvt = ATTACHMENT_COUNT ∧
      A.countP isAttachEvt = 0 ∧
      A.countP isFboBindEvt = 0 ∧
      B.countP isTexImageEvt = 0 ∧
      B.countP isGenEvt = 0 ∧
      (∀ n : Fin ATTACHMENT_COUNT,
        GLEvent.fboAttach (cre1.state.bufferTextureIDs n)
          (cre1.state.bufferAttachments n) ∈ B) ∧
      cre1.trace.getLast? = some GLEvent.fboUnbind ∧
      cre1.state.fboBound = false) :=
  ⟨by decide, c8_create_ordering gbFresh ctx0 ⟨100, 200⟩ cre1 (by decide)⟩

/-- C9 (confirmed; `HasAttachments` modelled from the spec): whenever an
`Update` on a valid surface reports failure (`ret = false`, i.e. `Create` ran
and the completeness check failed), every slot's texture handle and attachment
tag has nevertheless been fully populated, so `HasAttachments` is true
afterward; consequently the next `Update` with an unchanged wanted size
returns success without performing any work (empty trace, state unchanged),
even though the buffer never became complete. -/
theorem c9_failure_then_spurious_success (gb : GeometryBuffer)
    (ctx : GLContext) (i1 i2 : Bool) (out : Out Bool)
    (hv : gb.fboValid = true) (h : Update gb ctx i1 = .ok out)
    (hr : out.ret = false) :
    (∀ n : Fin ATTACHMENT_COUNT,
       out.state.bufferTextureIDs n ≠ 0 ∧
       out.state.bufferAttachments n ≠ 0) ∧
    HasAttachments out.state = true ∧
    Update out.state out.ctx i2 = .ok ⟨out.state, out.ctx, [], true⟩ := by
  obtain ⟨hc, hp, ha, hv1, hx, hy, hids⟩ := update_post gb ctx i1 out hv h
  refine ⟨hids hr, ha, ?_⟩
  apply update_noop _ _ _ hv1 ha
  · rw [hp]; simp [GetWantedSize, hx, hy]
  · rw [hc]; simp [GetWantedSize, hx, hy]

/-- C9 witness: under `ctxBad` the completeness check fails, yet the follow-up
`Update` reports success without work. -/
theorem c9_witness :
    gbFresh.fboValid = true ∧
    Update gbFresh ctxBad true = .ok updBad ∧
    updBad.ret = false ∧
    ((∀ n : Fin ATTACHMENT_COUNT,
        updBad.state.bufferTextureIDs n ≠ 0 ∧
        updBad.state.bufferAttachments n ≠ 0) ∧
     HasAttachments updBad.state = true ∧
     Update updBad.state updBad.ctx false =
       .ok ⟨updBad.state, updBad.ctx, [], true⟩) :=
  ⟨rfl, by decide, by decide,
   c9_failure_then_spurious_success gbFresh ctxBad true false updBad rfl
     (by decide) (by decide)⟩

/-- C10 (confirmed; `HasAttachments` modelled from the spec): if `Update` is
called with `init = true` while attachments exist and the wanted size differs
from the last realized size, `DetachTextures(true)` returns immediately: the
whole call issues no `FBO::Detach` and no `glDeleteTextures` call, and every
slot handle is overwritten by a freshly generated texture name (emitted by a
`glGenTextures` call of this very `Update`), different from the old handle —
the old handles leave the slot array without being freed. -/
theorem c10_resize_with_init_leaks_handles (gb : GeometryBuffer)
    (ctx : GLContext) (out : Out Bool)
    (hv : gb.fboValid = true) (ha : HasAttachments gb = true)
    (hne : gb.prevBufferSize ≠ GetWantedSize ctx true)
    (hold : ∀ n : Fin ATTACHMENT_COUNT,
       gb.bufferTextureIDs n ≤ ctx.texCounter)
    (h : Update gb ctx true = .ok out) :
    out.trace.countP isDetachEvt = 0 ∧
    out.trace.countP isDeleteEvt = 0 ∧
    (∀ n : Fin ATTACHMENT_COUNT,
       GLEvent.genTexture (out.state.bufferTextureIDs n) ∈ out.trace ∧
       out.state.bufferTextureIDs n ≠ gb.bufferTextureIDs n) := by
  rw [update_of_att_ne_init gb ctx hv ha hne] at h
  obtain ⟨out2, hC, _, _, hd, hdel, _⟩ :=
    create_counts
      { gb with currBufferSize := GetWantedSize ctx true,
                prevBufferSize := GetWantedSize ctx true } ctx
      (GetWantedSize ctx true) hv
  have hout : out2 = out := by
    rw [hC] at h
    injection h
  subst hout
  have hf := create_fresh
    { gb with currBufferSize := GetWantedSize ctx true,
              prevBufferSize := GetWantedSize ctx true } ctx
    (GetWantedSize ctx true) out2 hC
  refine ⟨hd, hdel, fun n => ⟨(hf n).2, ?_⟩⟩
  have h1 := (hf n).1
  have h2 := hold n
  omega

/-- C10 witness: `upd1`'s state (populated slots, realized size 100x200)
resized to 50x60 with `init = true`. -/
theorem c10_witness :
    upd1.state.fboValid = true ∧
    HasAttachments upd1.state = true ∧
    upd1.state.prevBufferSize ≠ GetWantedSize ctxResize true ∧
    (∀ n : Fin ATTACHMENT_COUNT,
       upd1.state.bufferTextureIDs n ≤ ctxResize.texCounter) ∧
    Update upd1.state ctxResize true = .ok upd2 ∧
    (upd2.trace.countP isDetachEvt = 0 ∧
     upd2.trace.countP isDeleteEvt = 0 ∧
     (∀ n : Fin ATTACHMENT_COUNT,
        GLEvent.genTexture (upd2.state.bufferTextureIDs n) ∈ upd2.trace ∧
        upd2.state.bufferTextureIDs n ≠ upd1.state.bufferTextureIDs n)) :=
  ⟨by decide, by decide, by decide, by decide, by decide,
   c10_resize_with_init_leaks_handles upd1.state ctxResize upd2 (by decide)
     (by decide) (by decide) (by decide) (by decide)⟩

end GeometryBuffer
